import Mathlib

/-
Verification of the authentication core of the employee-management service:
PIN issuance, storage, expiry, attempt limiting (src/auth.py, src/app.py) and
signed access tokens (src/auth.py with the jose JWT library).

Modelling conventions:
* Time is a natural number measured in minutes (the source uses
  `datetime.now()` and `timedelta(minutes=...)`; all comparisons in the
  source are order comparisons on these timestamps, so Nat minutes are a
  faithful carrier).
* The in-memory dict `pin_storage : Dict[str, Dict]` is modelled as an
  association list `List (String × PinEntry)`; Python dict semantics
  (at most one binding per key) is recovered as a proved invariant of the
  reachable states.
* `random.choices` (PIN generation) is nondeterministic, so the generated
  PIN is an explicit parameter of the issuance transition.
* SMTP delivery and its three control-flow outcomes in `send_pin_email`
  (unconfigured credentials, successful send, raised exception) are an
  explicit environment parameter `SmtpOutcome`.
* The jose JWT primitives are modelled with a perfect-MAC assumption: a
  signature is identified with the pair (key, signed payload), so signature
  verification succeeds exactly when the token was produced with the same
  secret over the same payload.
-/

namespace TeachTest

/-- One stored PIN record: the value of `pin_storage[email]` in
`src/auth.py` (`store_pin`), with fields `pin`, `expires_at`, `attempts`. -/
structure PinEntry where
  pin : String
  expires_at : Nat
  attempts : Nat
deriving DecidableEq, Repr

/-- The PIN store `pin_storage : Dict[str, Dict]` of `src/auth.py`,
as an association list from email to entry. -/
abbrev PinStorage := List (String × PinEntry)

/-- Dict lookup `pin_storage[email]` / `email in pin_storage`. -/
def lookupPin : PinStorage → String → Option PinEntry
  | [], _ => none
  | (k, v) :: t, email => if k = email then some v else lookupPin t email

/-- Dict assignment `pin_storage[email] = ...`: replaces the binding for
`email` if present (in place), otherwise appends a new binding. -/
def insertPin : PinStorage → String → PinEntry → PinStorage
  | [], email, e => [(email, e)]
  | (k, v) :: t, email, e =>
      if k = email then (email, e) :: t else (k, v) :: insertPin t email e

/-- Dict deletion `del pin_storage[email]`: removes every binding for
`email` (on reachable states there is at most one). -/
def erasePin : PinStorage → String → PinStorage
  | [], _ => []
  | (k, v) :: t, email =>
      if k = email then erasePin t email else (k, v) :: erasePin t email

/-- The sublist of bindings for a given email, used to state the
one-entry-per-identity invariant. -/
def entriesFor : PinStorage → String → PinStorage
  | [], _ => []
  | (k, v) :: t, email =>
      if k = email then (k, v) :: entriesFor t email else entriesFor t email

/-- PIN lifetime: `timedelta(minutes=10)` in `store_pin`. -/
def PIN_EXPIRY_MINUTES : Nat := 10

/-- Token lifetime: `ACCESS_TOKEN_EXPIRE_MINUTES = 480  # 8 hours` in
`src/auth.py`. -/
def ACCESS_TOKEN_EXPIRE_MINUTES : Nat := 480

/-- Model of `store_pin(email, pin)` in `src/auth.py`: stores the entry
with `expires_at = now + 10 minutes` and `attempts = 0`, overwriting any
existing binding for the email. -/
def store_pin (now : Nat) (s : PinStorage) (email pin : String) : PinStorage :=
  insertPin s email { pin := pin, expires_at := now + PIN_EXPIRY_MINUTES, attempts := 0 }

/-- Outcome of one `verify_pin` call. The Python function returns `bool`;
the constructors record which return site of `src/auth.py` lines 89-115 was
taken (each site has a distinct store effect and log line). `success`
corresponds to the single `return True`; the other four to the four
`return False` sites. -/
inductive VerifyResult
  | success
  | notFound
  | expired
  | tooManyAttempts
  | mismatch
deriving DecidableEq, Repr

/-- The boolean actually returned by the Python `verify_pin`. -/
def VerifyResult.toBool : VerifyResult → Bool
  | .success => true
  | _ => false

/-- Model of `verify_pin(email, entered_pin)` in `src/auth.py` lines 78-115:
guards evaluated in source order (presence, expiry, attempt limit, match),
returning the outcome together with the updated store. -/
def verify_pin (now : Nat) (s : PinStorage) (email entered_pin : String) :
    VerifyResult × PinStorage :=
  match lookupPin s email with
  | none => (.notFound, s)
  | some stored =>
      if now > stored.expires_at then
        (.expired, erasePin s email)
      else if stored.attempts ≥ 3 then
        (.tooManyAttempts, erasePin s email)
      else if stored.pin = entered_pin then
        (.success, erasePin s email)
      else
        (.mismatch, insertPin s email { stored with attempts := stored.attempts + 1 })

/-- Model of `cleanup_expired_pins()` in `src/auth.py`: deletes every entry
with `now > expires_at`. -/
def cleanup_expired_pins : Nat → PinStorage → PinStorage
  | _, [] => []
  | now, (k, v) :: t =>
      if now > v.expires_at then cleanup_expired_pins now t
      else (k, v) :: cleanup_expired_pins now t

/-- Environment of one `send_pin_email` call: which of the three
control-flow branches of `src/auth.py` lines 129-186 runs (SMTP credentials
absent; SMTP send completes; SMTP send raises an exception). -/
inductive SmtpOutcome
  | notConfigured
  | sendOk
  | sendRaises
deriving DecidableEq, Repr

/-- Model of `send_pin_email(email, pin)` in `src/auth.py`: the
unconfigured branch returns `True` (line 136), the successful-send branch
returns `True` (line 178), and the exception handler also returns `True`
(line 186, `return True  # Return True anyway for development`). -/
def send_pin_email : SmtpOutcome → String → String → Bool
  | .notConfigured, _, _ => true
  | .sendOk, _, _ => true
  | .sendRaises, _, _ => true

/-- HTTP-level result of the `request_pin` endpoint: the JSON success body
or a raised `HTTPException`. -/
inductive PinResponse
  | ok (message : String)
  | httpError (statusCode : Nat) (detail : String)
deriving DecidableEq, Repr

/-- Model of the `POST /api/auth/request-pin` handler `request_pin` in
`src/app.py` lines 255-286: cleanup of expired PINs, then PIN generation
(the fresh PIN is the parameter `newPin`), then `store_pin`, then
`send_pin_email`; the 500 error is raised only when `send_pin_email`
returns `False`. -/
def request_pin (env : SmtpOutcome) (now : Nat) (newPin : String)
    (s : PinStorage) (email : String) : PinResponse × PinStorage :=
  let s1 := cleanup_expired_pins now s
  let s2 := store_pin now s1 email newPin
  let email_sent := send_pin_email env email newPin
  if email_sent then
    (.ok ("PIN sent to " ++ email ++ ". Please check your email (and spam folder)."), s2)
  else
    (.httpError 500 "Failed to send PIN. Please try again.", s2)

/-- Default signing secret `SECRET_KEY` of `src/auth.py` line 31. -/
def SECRET_KEY : String := "your-secret-key-change-this-in-production"

/-- Decoded JWT claim set: the `sub` claim may be absent in a token that
was not produced by `create_access_token`, and `exp` is the absolute expiry
timestamp (minutes). -/
structure TokenPayload where
  sub : Option String
  exp : Nat
deriving DecidableEq, Repr

/-- A structurally well-formed signed token: a payload plus its signature.
Under the perfect-MAC assumption the signature is identified with the pair
(signing key, signed payload). -/
structure Jwt where
  payload : TokenPayload
  mac : String × TokenPayload
deriving DecidableEq, Repr

/-- A raw token string handed to verification: either it parses as a signed
token or it is malformed. -/
inductive TokenInput
  | token (j : Jwt)
  | malformed (raw : String)
deriving DecidableEq, Repr

/-- Modelled from the jose library used by `src/auth.py`:
`jwt.encode(claims, key, algorithm)` deterministically signs the payload
with the key and always succeeds. -/
def jwt_encode (secret : String) (p : TokenPayload) : Jwt :=
  { payload := p, mac := (secret, p) }

/-- Modelled from the jose library used by `src/auth.py`:
`jwt.decode(token, key, algorithms)` fails (raises `JWTError`, here `none`)
on a malformed token or a signature that does not verify under `key`, and
fails with `ExpiredSignatureError` (a `JWTError`) when the `exp` claim is in
the past (`exp < now`); otherwise it returns the claim set. -/
def jwt_decode (secret : String) (now : Nat) (t : TokenInput) : Option TokenPayload :=
  match t with
  | .malformed _ => none
  | .token j =>
      if j.mac = (secret, j.payload) then
        if j.payload.exp < now then none else some j.payload
      else none

/-- Model of `create_access_token(email)` in `src/auth.py` lines 189-212:
encodes `sub = email` and `exp = now + ACCESS_TOKEN_EXPIRE_MINUTES` under
`SECRET_KEY`. Total: issuance always succeeds. -/
def create_access_token (now : Nat) (email : String) : Jwt :=
  jwt_encode SECRET_KEY { sub := some email, exp := now + ACCESS_TOKEN_EXPIRE_MINUTES }

/-- Model of `verify_token(token)` in `src/auth.py` lines 215-240: decodes
under `SECRET_KEY`; any `JWTError` is caught and yields `None`; a valid
token whose payload lacks the `sub` claim also yields `None`. -/
def verify_token (now : Nat) (t : TokenInput) : Option String :=
  match jwt_decode SECRET_KEY now t with
  | none => none
  | some payload =>
      match payload.sub with
      | none => none
      | some email => some email

/-- States of the PIN store reachable from the empty store by the
operations the source ever applies to `pin_storage`: `store_pin`,
`verify_pin`, and `cleanup_expired_pins` (the `request_pin` handler is the
composition of a cleanup step and a store step). -/
inductive Reachable : PinStorage → Prop
  | empty : Reachable []
  | store (now : Nat) (email pin : String) {s : PinStorage} :
      Reachable s → Reachable (store_pin now s email pin)
  | verify (now : Nat) (email pin : String) {s : PinStorage} :
      Reachable s → Reachable (verify_pin now s email pin).2
  | cleanup (now : Nat) {s : PinStorage} :
      Reachable s → Reachable (cleanup_expired_pins now s)

lemma lookupPin_insertPin_self (s : PinStorage) (k : String) (v : PinEntry) :
    lookupPin (insertPin s k v) k = some v := by
  induction s with
  | nil => simp [insertPin, lookupPin]
  | cons p t ih =>
      obtain ⟨k', v'⟩ := p
      by_cases h : k' = k
      · simp [insertPin, h, lookupPin]
      · simp [insertPin, h, lookupPin, ih]

lemma lookupPin_erasePin_self (s : PinStorage) (k : String) :
    lookupPin (erasePin s k) k = none := by
  induction s with
  | nil => rfl
  | cons p t ih =>
      obtain ⟨k', v'⟩ := p
      by_cases h : k' = k
      · simpa [erasePin, h] using ih
      · simp [erasePin, h, lookupPin, ih]

lemma verify_pin_notFound {now : Nat} {s : PinStorage} {email pin : String}
    (h : lookupPin s email = none) : verify_pin now s email pin = (.notFound, s) := by
  simp [verify_pin, h]

lemma verify_pin_expired {now : Nat} {s : PinStorage} {email pin : String} {e : PinEntry}
    (h : lookupPin s email = some e) (hx : now > e.expires_at) :
    verify_pin now s email pin = (.expired, erasePin s email) := by
  simp [verify_pin, h, hx]

lemma verify_pin_tooMany {now : Nat} {s : PinStorage} {email pin : String} {e : PinEntry}
    (h : lookupPin s email = some e) (hx : ¬ now > e.expires_at) (ha : e.attempts ≥ 3) :
    verify_pin now s email pin = (.tooManyAttempts, erasePin s email) := by
  simp [verify_pin, h, hx, ha]

lemma verify_pin_success {now : Nat} {s : PinStorage} {email pin : String} {e : PinEntry}
    (h : lookupPin s email = some e) (hx : ¬ now > e.expires_at) (ha : ¬ e.attempts ≥ 3)
    (hp : e.pin = pin) :
    verify_pin now s email pin = (.success, erasePin s email) := by
  simp [verify_pin, h, hx, ha, hp]

lemma verify_pin_mismatch {now : Nat} {s : PinStorage} {email pin : String} {e : PinEntry}
    (h : lookupPin s email = some e) (hx : ¬ now > e.expires_at) (ha : ¬ e.attempts ≥ 3)
    (hp : e.pin ≠ pin) :
    verify_pin now s email pin =
      (.mismatch, insertPin s email { e with attempts := e.attempts + 1 }) := by
  simp [verify_pin, h, hx, ha, hp]

lemma mem_insertPin {s : PinStorage} {k : String} {v : PinEntry} {p : String × PinEntry}
    (hp : p ∈ insertPin s k v) : p = (k, v) ∨ p ∈ s := by
  induction s with
  | nil => simpa [insertPin] using hp
  | cons q t ih =>
      obtain ⟨k', v'⟩ := q
      by_cases h : k' = k
      · rw [insertPin, if_pos h] at hp
        rcases List.mem_cons.mp hp with h1 | h1
        · exact Or.inl h1
        · exact Or.inr (List.mem_cons_of_mem _ h1)
      · rw [insertPin, if_neg h] at hp
        rcases List.mem_cons.mp hp with h1 | h1
        · exact Or.inr (h1 ▸ List.mem_cons_self _ _)
        · rcases ih h1 with h2 | h2
          · exact Or.inl h2
          · exact Or.inr (List.mem_cons_of_mem _ h2)

lemma mem_erasePin {s : PinStorage} {k : String} {p : String × PinEntry}
    (hp : p ∈ erasePin s k) : p ∈ s := by
  induction s with
  | nil => simp [erasePin] at hp
  | cons q t ih =>
      obtain ⟨k', v'⟩ := q
      by_cases h : k' = k
      · rw [erasePin, if_pos h] at hp
        exact List.mem_cons_of_mem _ (ih hp)
      · rw [erasePin, if_neg h] at hp
        rcases List.mem_cons.mp hp with h1 | h1
        · exact h1 ▸ List.mem_cons_self _ _
        · exact List.mem_cons_of_mem _ (ih h1)

lemma mem_cleanup {now : Nat} {s : PinStorage} {p : String × PinEntry}
    (hp : p ∈ cleanup_expired_pins now s) : p ∈ s := by
  induction s with
  | nil => simp [cleanup_expired_pins] at hp
  | cons q t ih =>
      obtain ⟨k', v'⟩ := q
      by_cases h : now > v'.expires_at
      · rw [cleanup_expired_pins, if_pos h] at hp
        exact List.mem_cons_of_mem _ (ih hp)
      · rw [cleanup_expired_pins, if_neg h] at hp
        rcases List.mem_cons.mp hp with h1 | h1
        · exact h1 ▸ List.mem_cons_self _ _
        · exact List.mem_cons_of_mem _ (ih h1)

lemma mem_keys_insertPin {s : PinStorage} {k a : String} {v : PinEntry}
    (h : a ∈ (insertPin s k v).map Prod.fst) : a = k ∨ a ∈ s.map Prod.fst := by
  rcases List.mem_map.mp h with ⟨p, hp, hpa⟩
  rcases mem_insertPin hp with h1 | h1
  · left; rw [← hpa, h1]
  · right; exact hpa ▸ List.mem_map_of_mem _ h1

lemma nodup_keys_insertPin {s : PinStorage} {k : String} {v : PinEntry}
    (h : (s.map Prod.fst).Nodup) : ((insertPin s k v).map Prod.fst).Nodup := by
  induction s with
  | nil => simp [insertPin]
  | cons q t ih =>
      obtain ⟨k', v'⟩ := q
      rw [List.map_cons, List.nodup_cons] at h
      by_cases hk : k' = k
      · rw [insertPin, if_pos hk, List.map_cons, List.nodup_cons]
        exact ⟨hk ▸ h.1, h.2⟩
      · rw [insertPin, if_neg hk, List.map_cons, List.nodup_cons]
        refine ⟨fun hmem => ?_, ih h.2⟩
        rcases mem_keys_insertPin hmem with h1 | h1
        · exact hk h1
        · exact h.1 h1

lemma mem_keys_erasePin {s : PinStorage} {k a : String}
    (h : a ∈ (erasePin s k).map Prod.fst) : a ∈ s.map Prod.fst := by
  rcases List.mem_map.mp h with ⟨p, hp, hpa⟩
  exact hpa ▸ List.mem_map_of_mem _ (mem_erasePin hp)

lemma nodup_keys_erasePin {s : PinStorage} {k : String}
    (h : (s.map Prod.fst).Nodup) : ((erasePin s k).map Prod.fst).Nodup := by
  induction s with
  | nil => simp [erasePin]
  | cons q t ih =>
      obtain ⟨k', v'⟩ := q
      rw [List.map_cons, List.nodup_cons] at h
      by_cases hk : k' = k
      · rw [erasePin, if_pos hk]; exact ih h.2
      · rw [erasePin, if_neg hk, List.map_cons, List.nodup_cons]
        exact ⟨fun hmem => h.1 (mem_keys_erasePin hmem), ih h.2⟩

lemma mem_keys_cleanup {now : Nat} {s : PinStorage} {a : String}
    (h : a ∈ (cleanup_expired_pins now s).map Prod.fst) : a ∈ s.map Prod.fst := by
  rcases List.mem_map.mp h with ⟨p, hp, hpa⟩
  exact hpa ▸ List.mem_map_of_mem _ (mem_cleanup hp)

lemma nodup_keys_cleanup {now : Nat} {s : PinStorage}
    (h : (s.map Prod.fst).Nodup) : ((cleanup_expired_pins now s).map Prod.fst).Nodup := by
  induction s with
  | nil => simp [cleanup_expired_pins]
  | cons q t ih =>
      obtain ⟨k', v'⟩ := q
      rw [List.map_cons, List.nodup_cons] at h
      by_cases hx : now > v'.expires_at
      · rw [cleanup_expired_pins, if_pos hx]; exact ih h.2
      · rw [cleanup_expired_pins, if_neg hx, List.map_cons, List.nodup_cons]
        exact ⟨fun hmem => h.1 (mem_keys_cleanup hmem), ih h.2⟩

lemma entriesFor_eq_nil_of_not_mem {s : PinStorage} {k : String}
    (h : k ∉ s.map Prod.fst) : entriesFor s k = [] := by
  induction s with
  | nil => rfl
  | cons q t ih =>
      obtain ⟨k', v'⟩ := q
      rw [List.map_cons] at h
      have hk : ¬ k' = k := fun he => h (by rw [he]; exact List.mem_cons_self _ _)
      rw [entriesFor, if_neg hk]
      exact ih (fun hm => h (List.mem_cons_of_mem _ hm))

lemma entriesFor_insertPin_self {s : PinStorage} {k : String} {v : PinEntry}
    (h : (s.map Prod.fst).Nodup) : entriesFor (insertPin s k v) k = [(k, v)] := by
  induction s with
  | nil => simp [insertPin, entriesFor]
  | cons q t ih =>
      obtain ⟨k', v'⟩ := q
      rw [List.map_cons, List.nodup_cons] at h
      by_cases hk : k' = k
      · rw [insertPin, if_pos hk, entriesFor, if_pos rfl,
          entriesFor_eq_nil_of_not_mem (hk ▸ h.1)]
      · rw [insertPin, if_neg hk, entriesFor, if_neg hk, ih h.2]

lemma verify_pin_snd_cases (now : Nat) (s : PinStorage) (email pin : String) :
    (verify_pin now s email pin).2 = s ∨
    (verify_pin now s email pin).2 = erasePin s email ∨
    ∃ e, lookupPin s email = some e ∧ ¬ e.attempts ≥ 3 ∧
      (verify_pin now s email pin).2 =
        insertPin s email { e with attempts := e.attempts + 1 } := by
  rcases h : lookupPin s email with _ | e
  · left; simp [verify_pin, h]
  · by_cases hx : now > e.expires_at
    · right; left; simp [verify_pin, h, hx]
    · by_cases ha : e.attempts ≥ 3
      · right; left; simp [verify_pin, h, hx, ha]
      · by_cases hp : e.pin = pin
        · right; left; simp [verify_pin, h, hx, ha, hp]
        · right; right; exact ⟨e, rfl, ha, by simp [verify_pin, h, hx, ha, hp]⟩

/-- Python-dict representation invariant plus the attempts bound: at most
one binding per email, and every stored attempts counter is at most 3. -/
def StoreInv (s : PinStorage) : Prop :=
  (s.map Prod.fst).Nodup ∧ ∀ p ∈ s, p.2.attempts ≤ 3

lemma reachable_storeInv {s : PinStorage} (h : Reachable s) : StoreInv s := by
  induction h with
  | empty => exact ⟨List.nodup_nil, by simp⟩
  | store now email pin hr ih =>
      refine ⟨nodup_keys_insertPin ih.1, fun p hp => ?_⟩
      rcases mem_insertPin hp with h1 | h1
      · rw [h1]; exact Nat.zero_le 3
      · exact ih.2 p h1
  | verify now email pin hr ih =>
      rcases verify_pin_snd_cases now _ email pin with hc | hc | ⟨e, he, ha, hc⟩
      · rw [hc]; exact ih
      · rw [hc]
        exact ⟨nodup_keys_erasePin ih.1, fun p hp => ih.2 p (mem_erasePin hp)⟩
      · rw [hc]
        refine ⟨nodup_keys_insertPin ih.1, fun p hp => ?_⟩
        rcases mem_insertPin hp with h1 | h1
        · rw [h1]; show e.attempts + 1 ≤ 3; omega
        · exact ih.2 p h1
  | cleanup now hr ih =>
      exact ⟨nodup_keys_cleanup ih.1, fun p hp => ih.2 p (mem_cleanup hp)⟩

lemma request_pin_snd (env : SmtpOutcome) (now : Nat) (newPin : String)
    (s : PinStorage) (email : String) :
    (request_pin env now newPin s email).2 =
      store_pin now (cleanup_expired_pins now s) email newPin := by
  cases env <;> simp [request_pin, send_pin_email]

/-- Concrete four-step scenario used by several witnesses and
counterexamples: PIN issued for a@x.com at time 0, followed by repeated
wrong submissions at time 0. -/
def chain0 : PinStorage := store_pin 0 [] "a@x.com" "481920"

/-- Store after the first wrong submission against `chain0`. -/
def chain1 : PinStorage := (verify_pin 0 chain0 "a@x.com" "000000").2

/-- Store after the second wrong submission. -/
def chain2 : PinStorage := (verify_pin 0 chain1 "a@x.com" "000000").2

/-- Store after the third wrong submission. -/
def chain3 : PinStorage := (verify_pin 0 chain2 "a@x.com" "000000").2

example : store_pin 0 [] "a@x.com" "481920" = [("a@x.com", ⟨"481920", 10, 0⟩)] := by decide

example : (verify_pin 0 [("a@x.com", ⟨"481920", 10, 0⟩)] "a@x.com" "000000") =
    (.mismatch, [("a@x.com", ⟨"481920", 10, 1⟩)]) := by decide

example : (verify_pin 0 [("a@x.com", ⟨"481920", 10, 1⟩)] "a@x.com" "481920") =
    (.success, []) := by decide

example : verify_token 5 (.token (create_access_token 0 "a@x.com")) = some "a@x.com" := by decide

/-- C1: a single `verify_pin` call evaluates its guards in source order —
no entry → notFound with the store unchanged; expired (`now > expiresAt`)
→ entry deleted, expired; `attempts ≥ 3` → entry deleted,
tooManyAttempts; stored code equal to the submitted code → entry deleted,
success; otherwise → attempts incremented by one, entry kept, mismatch. -/
theorem C1_verify_pin_state_machine (now : Nat) (s : PinStorage) (email pin : String) :
    (lookupPin s email = none → verify_pin now s email pin = (.notFound, s)) ∧
    (∀ e, lookupPin s email = some e → now > e.expires_at →
      verify_pin now s email pin = (.expired, erasePin s email) ∧
      lookupPin (verify_pin now s email pin).2 email = none) ∧
    (∀ e, lookupPin s email = some e → ¬ now > e.expires_at → e.attempts ≥ 3 →
      verify_pin now s email pin = (.tooManyAttempts, erasePin s email) ∧
      lookupPin (verify_pin now s email pin).2 email = none) ∧
    (∀ e, lookupPin s email = some e → ¬ now > e.expires_at → ¬ e.attempts ≥ 3 →
      e.pin = pin →
      verify_pin now s email pin = (.success, erasePin s email) ∧
      lookupPin (verify_pin now s email pin).2 email = none) ∧
    (∀ e, lookupPin s email = some e → ¬ now > e.expires_at → ¬ e.attempts ≥ 3 →
      e.pin ≠ pin →
      verify_pin now s email pin =
        (.mismatch, insertPin s email { e with attempts := e.attempts + 1 }) ∧
      lookupPin (verify_pin now s email pin).2 email =
        some { e with attempts := e.attempts + 1 }) := by
  refine ⟨fun h => verify_pin_notFound h,
    fun e h hx => ?_, fun e h hx ha => ?_, fun e h hx ha hp => ?_, fun e h hx ha hp => ?_⟩
  · refine ⟨verify_pin_expired h hx, ?_⟩
    rw [verify_pin_expired h hx]
    exact lookupPin_erasePin_self s email
  · refine ⟨verify_pin_tooMany h hx ha, ?_⟩
    rw [verify_pin_tooMany h hx ha]
    exact lookupPin_erasePin_self s email
  · refine ⟨verify_pin_success h hx ha hp, ?_⟩
    rw [verify_pin_success h hx ha hp]
    exact lookupPin_erasePin_self s email
  · refine ⟨verify_pin_mismatch h hx ha hp, ?_⟩
    rw [verify_pin_mismatch h hx ha hp]
    exact lookupPin_insertPin_self s email _

/-- Witness for C1: the notFound branch on the empty store and the
mismatch branch on a freshly issued entry, at concrete inputs. -/
theorem C1_verify_pin_state_machine_witness :
    verify_pin 0 [] "a@x.com" "481920" = (.notFound, []) ∧
    verify_pin 0 chain0 "a@x.com" "000000" =
      (.mismatch, [("a@x.com", ⟨"481920", 10, 1⟩)]) :=
  ⟨(C1_verify_pin_state_machine 0 [] "a@x.com" "481920").1 rfl,
   by
    have h := (C1_verify_pin_state_machine 0 chain0 "a@x.com" "000000").2.2.2.2
      ⟨"481920", 10, 0⟩ (by decide) (by decide) (by decide) (by decide)
    exact h.1.trans (by decide)⟩

/-- C2 counterexample: for a PIN issued at time 0 and three wrong
submissions, the third call returns mismatch (not tooManyAttempts), and
the fourth call with the correct code returns tooManyAttempts (not
notFound). -/
theorem C2_counterexample :
    (verify_pin 0 chain2 "a@x.com" "000000").1 = .mismatch ∧
    (verify_pin 0 chain2 "a@x.com" "000000").1 ≠ .tooManyAttempts ∧
    (verify_pin 0 chain3 "a@x.com" "481920").1 = .tooManyAttempts ∧
    (verify_pin 0 chain3 "a@x.com" "481920").1 ≠ .notFound := by
  decide

/-- C2 amended: with a fresh unexpired PIN, three consecutive wrong
submissions all fail with mismatch (the third leaves the entry stored with
attempts = 3); a fourth call, even with the correct code, fails with
tooManyAttempts and deletes the entry; a fifth call fails with
notFound. -/
theorem C2_amended_attempt_exhaustion
    (now0 now : Nat) (s : PinStorage) (email correct wrong : String)
    (s0 s1 s2 s3 s4 : PinStorage) (r1 r2 r3 r4 r5 : VerifyResult)
    (hx : ¬ now > now0 + PIN_EXPIRY_MINUTES) (hw : wrong ≠ correct)
    (h0 : s0 = store_pin now0 s email correct)
    (h1 : (r1, s1) = verify_pin now s0 email wrong)
    (h2 : (r2, s2) = verify_pin now s1 email wrong)
    (h3 : (r3, s3) = verify_pin now s2 email wrong)
    (h4 : (r4, s4) = verify_pin now s3 email correct)
    (h5 : r5 = (verify_pin now s4 email correct).1) :
    r1 = .mismatch ∧ r2 = .mismatch ∧ r3 = .mismatch ∧
    r4 = .tooManyAttempts ∧ lookupPin s4 email = none ∧ r5 = .notFound := by
  subst h0
  have hcw : correct ≠ wrong := fun hc => hw hc.symm
  have hge0 : ¬ (3:Nat) ≤ 0 := by omega
  have hge1 : ¬ (3:Nat) ≤ 1 := by omega
  have hge2 : ¬ (3:Nat) ≤ 2 := by omega
  have hl0 : lookupPin (store_pin now0 s email correct) email =
      some ⟨correct, now0 + PIN_EXPIRY_MINUTES, 0⟩ :=
    lookupPin_insertPin_self s email _
  have v1 : verify_pin now (store_pin now0 s email correct) email wrong =
      (.mismatch, insertPin (store_pin now0 s email correct) email
        ⟨correct, now0 + PIN_EXPIRY_MINUTES, 1⟩) :=
    verify_pin_mismatch hl0 hx hge0 hcw
  injection h1.trans v1 with hr1 hs1
  subst hs1
  have hl1 : lookupPin (insertPin (store_pin now0 s email correct) email
      ⟨correct, now0 + PIN_EXPIRY_MINUTES, 1⟩) email =
      some ⟨correct, now0 + PIN_EXPIRY_MINUTES, 1⟩ :=
    lookupPin_insertPin_self _ email _
  have v2 : verify_pin now (insertPin (store_pin now0 s email correct) email
      ⟨correct, now0 + PIN_EXPIRY_MINUTES, 1⟩) email wrong =
      (.mismatch, insertPin (insertPin (store_pin now0 s email correct) email
        ⟨correct, now0 + PIN_EXPIRY_MINUTES, 1⟩) email
        ⟨correct, now0 + PIN_EXPIRY_MINUTES, 2⟩) :=
    verify_pin_mismatch hl1 hx hge1 hcw
  injection h2.trans v2 with hr2 hs2
  subst hs2
  have hl2 : lookupPin (insertPin (insertPin (store_pin now0 s email correct) email
      ⟨correct, now0 + PIN_EXPIRY_MINUTES, 1⟩) email
      ⟨correct, now0 + PIN_EXPIRY_MINUTES, 2⟩) email =
      some ⟨correct, now0 + PIN_EXPIRY_MINUTES, 2⟩ :=
    lookupPin_insertPin_self _ email _
  have v3 : verify_pin now (insertPin (insertPin (store_pin now0 s email correct) email
      ⟨correct, now0 + PIN_EXPIRY_MINUTES, 1⟩) email
      ⟨correct, now0 + PIN_EXPIRY_MINUTES, 2⟩) email wrong =
      (.mismatch, insertPin (insertPin (insertPin (store_pin now0 s email correct) email
        ⟨correct, now0 + PIN_EXPIRY_MINUTES, 1⟩) email
        ⟨correct, now0 + PIN_EXPIRY_MINUTES, 2⟩) email
        ⟨correct, now0 + PIN_EXPIRY_MINUTES, 3⟩) :=
    verify_pin_mismatch hl2 hx hge2 hcw
  injection h3.trans v3 with hr3 hs3
  subst hs3
  have hl3 : lookupPin (insertPin (insertPin (insertPin
      (store_pin now0 s email correct) email
      ⟨correct, now0 + PIN_EXPIRY_MINUTES, 1⟩) email
      ⟨correct, now0 + PIN_EXPIRY_MINUTES, 2⟩) email
      ⟨correct, now0 + PIN_EXPIRY_MINUTES, 3⟩) email =
      some ⟨correct, now0 + PIN_EXPIRY_MINUTES, 3⟩ :=
    lookupPin_insertPin_self _ email _
  have v4 : verify_pin now (insertPin (insertPin (insertPin
      (store_pin now0 s email correct) email
      ⟨correct, now0 + PIN_EXPIRY_MINUTES, 1⟩) email
      ⟨correct, now0 + PIN_EXPIRY_MINUTES, 2⟩) email
      ⟨correct, now0 + PIN_EXPIRY_MINUTES, 3⟩) email correct =
      (.tooManyAttempts, erasePin (insertPin (insertPin (insertPin
        (store_pin now0 s email correct) email
        ⟨correct, now0 + PIN_EXPIRY_MINUTES, 1⟩) email
        ⟨correct, now0 + PIN_EXPIRY_MINUTES, 2⟩) email
        ⟨correct, now0 + PIN_EXPIRY_MINUTES, 3⟩) email) :=
    verify_pin_tooMany hl3 hx (Nat.le_refl 3)
  injection h4.trans v4 with hr4 hs4
  subst hs4
  have hl4 : lookupPin (erasePin (insertPin (insertPin (insertPin
      (store_pin now0 s email correct) email
      ⟨correct, now0 + PIN_EXPIRY_MINUTES, 1⟩) email
      ⟨correct, now0 + PIN_EXPIRY_MINUTES, 2⟩) email
      ⟨correct, now0 + PIN_EXPIRY_MINUTES, 3⟩) email) email = none :=
    lookupPin_erasePin_self _ email
  rw [verify_pin_notFound hl4] at h5
  exact ⟨hr1, hr2, hr3, hr4, hl4, h5⟩

/-- Witness for C2 amended: the five-call scenario at concrete inputs. -/
theorem C2_amended_attempt_exhaustion_witness :
    (verify_pin 0 chain0 "a@x.com" "000000").1 = .mismatch ∧
    (verify_pin 0 chain1 "a@x.com" "000000").1 = .mismatch ∧
    (verify_pin 0 chain2 "a@x.com" "000000").1 = .mismatch ∧
    (verify_pin 0 chain3 "a@x.com" "481920").1 = .tooManyAttempts ∧
    lookupPin (verify_pin 0 chain3 "a@x.com" "481920").2 "a@x.com" = none ∧
    (verify_pin 0 (verify_pin 0 chain3 "a@x.com" "481920").2 "a@x.com" "481920").1 =
      .notFound :=
  C2_amended_attempt_exhaustion 0 0 [] "a@x.com" "481920" "000000"
    chain0 chain1 chain2 chain3 (verify_pin 0 chain3 "a@x.com" "481920").2
    (verify_pin 0 chain0 "a@x.com" "000000").1
    (verify_pin 0 chain1 "a@x.com" "000000").1
    (verify_pin 0 chain2 "a@x.com" "000000").1
    (verify_pin 0 chain3 "a@x.com" "481920").1
    (verify_pin 0 (verify_pin 0 chain3 "a@x.com" "481920").2 "a@x.com" "481920").1
    (by decide) (by decide) (by decide) rfl rfl rfl rfl rfl

/-- C3 counterexample: `chain3` is a reachable store in which the failed
verification that brought attempts to 3 left the entry in place — the
immediately subsequent lookup returns it, not absent. -/
theorem C3_counterexample :
    Reachable chain3 ∧
    (verify_pin 0 chain2 "a@x.com" "000000").1 = .mismatch ∧
    lookupPin chain3 "a@x.com" = some ⟨"481920", 10, 3⟩ ∧
    lookupPin chain3 "a@x.com" ≠ none :=
  ⟨by
    show Reachable (verify_pin 0 (verify_pin 0 (verify_pin 0
      (store_pin 0 [] "a@x.com" "481920") "a@x.com" "000000").2
      "a@x.com" "000000").2 "a@x.com" "000000").2
    exact .verify 0 _ _ (.verify 0 _ _ (.verify 0 _ _ (.store 0 _ _ .empty))),
   by decide, by decide, by decide⟩

/-- C3 amended: in every reachable store each identity has at most one
entry (the key list has no duplicates) and every attempts counter is at
most 3; but the failed verification that brings attempts to 3 keeps the
entry — the immediately subsequent lookup returns it with attempts = 3
(deletion happens only on a later call). -/
theorem C3_amended_invariants :
    (∀ s, Reachable s → (s.map Prod.fst).Nodup ∧ ∀ p ∈ s, p.2.attempts ≤ 3) ∧
    (∀ now s email pin e, lookupPin s email = some e → ¬ now > e.expires_at →
      e.attempts = 2 → e.pin ≠ pin →
      lookupPin (verify_pin now s email pin).2 email =
        some { e with attempts := 3 }) := by
  refine ⟨fun s h => reachable_storeInv h, ?_⟩
  intro now s email pin e hl hx he2 hp
  have ha : ¬ e.attempts ≥ 3 := by omega
  have hv := verify_pin_mismatch hl hx ha hp
  rw [he2] at hv
  rw [hv]
  exact lookupPin_insertPin_self s email _

/-- Witness for C3 amended: the invariant at a concrete reachable store
and the kept-entry behavior at a concrete attempts-2 store. -/
theorem C3_amended_invariants_witness :
    ((chain0.map Prod.fst).Nodup ∧ ∀ p ∈ chain0, p.2.attempts ≤ 3) ∧
    lookupPin (verify_pin 0 [("a@x.com", ⟨"481920", 10, 2⟩)] "a@x.com" "000000").2
      "a@x.com" = some ⟨"481920", 10, 3⟩ :=
  ⟨C3_amended_invariants.1 chain0 (.store 0 _ _ .empty),
   C3_amended_invariants.2 0 [("a@x.com", ⟨"481920", 10, 2⟩)] "a@x.com" "000000"
     ⟨"481920", 10, 2⟩ (by decide) (by decide) rfl (by decide)⟩

/-- C4 counterexample: when SMTP delivery raises, `send_pin_email` still
returns `True` and the `request_pin` endpoint reports success, so the
caller is not informed of the delivery failure. -/
theorem C4_counterexample :
    send_pin_email .sendRaises "a@x.com" "481920" = true ∧
    (request_pin .sendRaises 0 "481920" [] "a@x.com").1 =
      .ok "PIN sent to a@x.com. Please check your email (and spam folder)." ∧
    (request_pin .sendRaises 0 "481920" [] "a@x.com").1 ≠
      .httpError 500 "Failed to send PIN. Please try again." := by
  decide

/-- C4 amended: for every issuance in which the delivery step fails
(unconfigured transport or a raised send error), `send_pin_email`
nevertheless returns `True`, so the caller is told delivery succeeded and
is never informed of the delivery failure. -/
theorem C4_amended_delivery_failure_reports_success
    (email newPin : String) (now : Nat) (s : PinStorage) :
    send_pin_email .notConfigured email newPin = true ∧
    send_pin_email .sendRaises email newPin = true ∧
    (request_pin .notConfigured now newPin s email).1 =
      .ok ("PIN sent to " ++ email ++ ". Please check your email (and spam folder).") ∧
    (request_pin .sendRaises now newPin s email).1 =
      .ok ("PIN sent to " ++ email ++ ". Please check your email (and spam folder).") := by
  refine ⟨rfl, rfl, ?_, ?_⟩ <;> simp [request_pin, send_pin_email]

/-- C5: immediately after an issuance, exactly one entry exists for the
identity, with attempts = 0 and expiry = issuance time + 10 minutes; a
second issuance before verification replaces the entry, after which the
old code fails with mismatch and only the latest code verifies. -/
theorem C5_issue_postcondition (env : SmtpOutcome) (now : Nat) (newPin : String)
    (s : PinStorage) (email : String) (hnd : (s.map Prod.fst).Nodup) :
    lookupPin (request_pin env now newPin s email).2 email =
      some ⟨newPin, now + PIN_EXPIRY_MINUTES, 0⟩ ∧
    entriesFor (request_pin env now newPin s email).2 email =
      [(email, ⟨newPin, now + PIN_EXPIRY_MINUTES, 0⟩)] ∧
    (∀ env2 now2 pin2 now3, pin2 ≠ newPin → ¬ now3 > now2 + PIN_EXPIRY_MINUTES →
      (verify_pin now3
        (request_pin env2 now2 pin2 (request_pin env now newPin s email).2 email).2
        email newPin).1 = .mismatch ∧
      (verify_pin now3
        (request_pin env2 now2 pin2 (request_pin env now newPin s email).2 email).2
        email pin2).1 = .success) := by
  have hge0 : ¬ (3:Nat) ≤ 0 := by omega
  refine ⟨?_, ?_, ?_⟩
  · rw [request_pin_snd]
    exact lookupPin_insertPin_self _ email _
  · rw [request_pin_snd]
    exact entriesFor_insertPin_self (nodup_keys_cleanup hnd)
  · intro env2 now2 pin2 now3 hp hx3
    have hl2 : lookupPin (store_pin now2 (cleanup_expired_pins now2
        (request_pin env now newPin s email).2) email pin2) email =
        some ⟨pin2, now2 + PIN_EXPIRY_MINUTES, 0⟩ :=
      lookupPin_insertPin_self _ email _
    constructor
    · rw [request_pin_snd, verify_pin_mismatch hl2 hx3 hge0 hp]
    · rw [request_pin_snd, verify_pin_success hl2 hx3 hge0 rfl]

/-- Witness for C5: issuance and re-issuance at concrete inputs. -/
theorem C5_issue_postcondition_witness :
    lookupPin (request_pin .notConfigured 0 "481920" [] "a@x.com").2 "a@x.com" =
      some ⟨"481920", 10, 0⟩ ∧
    (verify_pin 12 (request_pin .sendOk 5 "999999"
      (request_pin .notConfigured 0 "481920" [] "a@x.com").2 "a@x.com").2
      "a@x.com" "481920").1 = .mismatch ∧
    (verify_pin 12 (request_pin .sendOk 5 "999999"
      (request_pin .notConfigured 0 "481920" [] "a@x.com").2 "a@x.com").2
      "a@x.com" "999999").1 = .success :=
  ⟨(C5_issue_postcondition .notConfigured 0 "481920" [] "a@x.com" (by decide)).1,
   ((C5_issue_postcondition .notConfigured 0 "481920" [] "a@x.com" (by decide)).2.2
     .sendOk 5 "999999" 12 (by decide) (by decide)).1,
   ((C5_issue_postcondition .notConfigured 0 "481920" [] "a@x.com" (by decide)).2.2
     .sendOk 5 "999999" 12 (by decide) (by decide)).2⟩

/-- C6: `create_access_token` is total, embeds expiry = issuance time +
480 minutes (8 hours), and `verify_token` before that expiry returns the
original identity. -/
theorem C6_token_roundtrip (now : Nat) (email : String) (now2 : Nat)
    (h : now2 < now + ACCESS_TOKEN_EXPIRE_MINUTES) :
    (create_access_token now email).payload.exp = now + ACCESS_TOKEN_EXPIRE_MINUTES ∧
    verify_token now2 (.token (create_access_token now email)) = some email := by
  have hx : ¬ now + ACCESS_TOKEN_EXPIRE_MINUTES < now2 := by omega
  exact ⟨rfl, by simp [verify_token, jwt_decode, create_access_token, jwt_encode, hx]⟩

/-- Witness for C6: a token issued at time 0 and checked at time 100. -/
theorem C6_token_roundtrip_witness :
    (create_access_token 0 "a@x.com").payload.exp = 480 ∧
    verify_token 100 (.token (create_access_token 0 "a@x.com")) = some "a@x.com" :=
  C6_token_roundtrip 0 "a@x.com" 100 (by decide)

/-- C7: `verify_token` returns none — its type rules out exceptions — on a
malformed token, on a signature that does not verify under the configured
secret, and on a token past its embedded expiry. -/
theorem C7_invalid_token_absent (now : Nat) :
    (∀ raw, verify_token now (.malformed raw) = none) ∧
    (∀ j, j.mac ≠ (SECRET_KEY, j.payload) → verify_token now (.token j) = none) ∧
    (∀ j, j.payload.exp < now → verify_token now (.token j) = none) := by
  refine ⟨fun raw => rfl, fun j hm => ?_, fun j hx => ?_⟩
  · simp [verify_token, jwt_decode, hm]
  · by_cases hm : j.mac = (SECRET_KEY, j.payload)
    · simp [verify_token, jwt_decode, hm, hx]
    · simp [verify_token, jwt_decode, hm]

/-- Witness for C7: a garbage string, a token signed under a different
key, and an expired token, at concrete inputs. -/
theorem C7_invalid_token_absent_witness :
    verify_token 5 (.malformed "garbage") = none ∧
    verify_token 5 (.token ⟨⟨some "a@x.com", 480⟩,
      ("wrong-key", ⟨some "a@x.com", 480⟩)⟩) = none ∧
    verify_token 500 (.token (create_access_token 0 "a@x.com")) = none :=
  ⟨(C7_invalid_token_absent 5).1 "garbage",
   (C7_invalid_token_absent 5).2.1 _ (by decide),
   (C7_invalid_token_absent 500).2.2 _ (by decide)⟩

/-- C8: the PIN is stored before delivery is attempted — the store handed
to the delivery step already holds the fresh entry — and the delivery
outcome (success, reported failure, or raised error) leaves the final
store identical. -/
theorem C8_storage_before_delivery (env : SmtpOutcome) (now : Nat) (newPin : String)
    (s : PinStorage) (email : String) :
    (request_pin env now newPin s email).2 =
      store_pin now (cleanup_expired_pins now s) email newPin ∧
    lookupPin (store_pin now (cleanup_expired_pins now s) email newPin) email =
      some ⟨newPin, now + PIN_EXPIRY_MINUTES, 0⟩ ∧
    (request_pin env now newPin s email).2 =
      (request_pin .sendOk now newPin s email).2 :=
  ⟨request_pin_snd env now newPin s email,
   lookupPin_insertPin_self _ email _,
   (request_pin_snd env now newPin s email).trans
     (request_pin_snd .sendOk now newPin s email).symm⟩

/-- C9: `send_pin_email` returns `True` in every branch, so the
`request_pin` endpoint always answers with the success body and its
HTTP 500 delivery-failure branch is unreachable. -/
theorem C9_delivery_error_branch_unreachable (env : SmtpOutcome) (email newPin : String) :
    send_pin_email env email newPin = true ∧
    ∀ now s, (request_pin env now newPin s email).1 =
        .ok ("PIN sent to " ++ email ++ ". Please check your email (and spam folder).") ∧
      ∀ d, (request_pin env now newPin s email).1 ≠ .httpError 500 d := by
  refine ⟨by cases env <;> rfl, fun now s => ⟨?_, fun d hcontra => ?_⟩⟩
  · cases env <;> simp [request_pin, send_pin_email]
  · cases env <;> simp [request_pin, send_pin_email] at hcontra

/-- C10: a token that passes signature and expiry validation but whose
payload lacks the sub claim yields none from `verify_token`. -/
theorem C10_missing_sub_claim (now : Nat) (j : Jwt)
    (hm : j.mac = (SECRET_KEY, j.payload)) (hx : ¬ j.payload.exp < now)
    (hs : j.payload.sub = none) :
    verify_token now (.token j) = none := by
  simp [verify_token, jwt_decode, hm, hx, hs]

/-- Witness for C10: a well-signed unexpired token with no sub claim. -/
theorem C10_missing_sub_claim_witness :
    verify_token 0 (.token ⟨⟨none, 480⟩, (SECRET_KEY, ⟨none, 480⟩)⟩) = none :=
  C10_missing_sub_claim 0 ⟨⟨none, 480⟩, (SECRET_KEY, ⟨none, 480⟩)⟩ rfl (by decide) rfl

end TeachTest
